import Mathlib

/-!
Shallow embedding of the authentication / profile-provisioning flow of the
La Campina school-management backend (Django + DRF + simplejwt over Supabase),
together with the composite-uniqueness constraints of the course, attendance
and assignment records.

Sources embedded:
- backend/apps/profiles/models.py (Profile, USER_ROLE_CHOICES, full_name)
- backend/apps/profiles/serializers.py (ProfileSerializer field lists,
  ProfileUpdateSerializer, validate_role)
- backend/apps/authentication/views.py (register_view, profile_view,
  update_profile_view, CustomTokenObtainPairView)
- backend/apps/courses/models.py, backend/apps/attendance/models.py,
  backend/apps/assignments/models.py (unique_together constraints)

UUIDs are modelled as natural numbers, timestamps are omitted (no embedded
behavior reads them), and the externally owned data store is a pair of lists.
The module apps/authentication/serializers.py (UserSerializer,
UserCreateSerializer, CustomTokenObtainPairSerializer) is imported by
views.py but is not part of the available sources; the definitions below
that stand in for it are marked `Modelled from the spec:` and follow the
specification text only.
-/

/-- USER_ROLE_CHOICES from profiles/models.py: admin, teacher, student, parent. -/
def USER_ROLE_CHOICES : List String := ["admin", "teacher", "student", "parent"]

/-- Profile row, from profiles/models.py (class Profile). `id` and `user_id`
are UUID columns modelled as Nat; `created_at` and `updated_at` are omitted. -/
structure Profile where
  id : Nat
  user_id : Nat
  email : String
  first_name : String
  last_name : String
  role : String
  phone : Option String
  avatar_url : Option String
  is_active : Bool
deriving DecidableEq, Repr

/-- The full_name property of Profile (profiles/models.py lines 41-43):
first_name, a single space, last_name. -/
def Profile.full_name (p : Profile) : String :=
  p.first_name ++ " " ++ p.last_name

/-- The Django auth user behind get_user_model(): identifier, unique email,
opaquely stored credential, active flag (spec section 3, Account). -/
structure Account where
  id : Nat
  email : String
  password_hash : String
  is_active : Bool
deriving DecidableEq, Repr

/-- Opaque credential storage: the stored form of a password. The tag keeps
the model honest that the raw password is never stored as-is. -/
def hashPassword (raw : String) : String := "pbkdf2:" ++ raw

/-- Constant-time hash comparison of the credential issuer, modelled as
hashing the supplied password and comparing stored forms. -/
def checkPassword (raw stored : String) : Bool := hashPassword raw == stored

/-- The externally owned data store restricted to the rows the embedded
operations touch: auth users and their profile rows. -/
structure DB where
  accounts : List Account
  profiles : List Profile
deriving DecidableEq, Repr

/-- Serialized field list of ProfileSerializer (profiles/serializers.py,
Meta.fields minus the omitted timestamps), as ordered key/value pairs.
Option-typed columns render their SQL NULL as the empty string. -/
def serializeProfile (p : Profile) : List (String × String) :=
  [("id", toString p.id),
   ("user_id", toString p.user_id),
   ("email", p.email),
   ("first_name", p.first_name),
   ("last_name", p.last_name),
   ("full_name", p.full_name),
   ("role", p.role),
   ("phone", p.phone.getD ""),
   ("avatar_url", p.avatar_url.getD ""),
   ("is_active", toString p.is_active)]

/-- Modelled from the spec: UserSerializer lives in
apps/authentication/serializers.py, which is not among the available sources.
Per spec section 4.2 the returned representation is the profile
representation of the account, excluding the credential; the field list
mirrors ProfileSerializer from profiles/serializers.py. -/
def serializeUser (db : DB) (a : Account) : List (String × String) :=
  match db.profiles.find? (fun p => p.user_id == a.id) with
  | some p => serializeProfile p
  | none => [("id", toString a.id), ("email", a.email)]

/-- Body of a registration request (spec section 6: email, password,
first_name, last_name, optional role). -/
structure RegisterRequest where
  email : String
  password : String
  first_name : String
  last_name : String
  role : Option String
deriving DecidableEq, Repr

/-- Modelled from the spec: the validation performed by UserCreateSerializer
(apps/authentication/serializers.py, not among the available sources).
Spec section 4.2: required fields present, email uniqueness, password meets
a minimum strength policy (modelled as the Django default minimum length 8).
Returns the field-level error map; empty means valid. -/
def validateRegister (db : DB) (r : RegisterRequest) : List (String × String) :=
  (if r.email = "" then [("email", "This field is required.")]
   else if db.accounts.any (fun a => a.email == r.email) then
     [("email", "A user with that email already exists.")]
   else []) ++
  (if r.password.length < 8 then [("password", "This password is too short.")] else []) ++
  (if r.first_name = "" then [("first_name", "This field is required.")] else []) ++
  (if r.last_name = "" then [("last_name", "This field is required.")] else [])

/-- Role applied to a created profile: the supplied value, or the column
default student from profiles/models.py (default=student). -/
def roleOrDefault (r : Option String) : String := r.getD "student"

/-- Modelled from the spec: UserCreateSerializer.save
(apps/authentication/serializers.py, not among the available sources).
Spec sections 4.2 and 5: atomically creates the Account and its linked
Profile in one transaction scope; the Profile takes the request fields and
the model defaults (role student, active, no phone, no avatar). `fresh` is
the identifier minted for the new account. -/
def createUserWithProfile (db : DB) (r : RegisterRequest) (fresh : Nat) :
    Account × Profile × DB :=
  let a : Account :=
    { id := fresh, email := r.email,
      password_hash := hashPassword r.password, is_active := true }
  let p : Profile :=
    { id := fresh, user_id := fresh, email := r.email,
      first_name := r.first_name, last_name := r.last_name,
      role := roleOrDefault r.role, phone := none, avatar_url := none,
      is_active := true }
  (a, p, { accounts := a :: db.accounts, profiles := p :: db.profiles })

/-- The JSON bodies the embedded endpoints produce. `userWrapped` is the
register_view success body (views.py lines 32-35: a dict with a user key
and a message key); `fieldErrors` is serializer.errors; `reprBody` is a
bare representation; `tokenPair` is the login success body. -/
inductive ResponseBody
  | userWrapped (user : List (String × String)) (message : String)
  | fieldErrors (errors : List (String × String))
  | reprBody (fields : List (String × String))
  | tokenPair (access : String) (refresh : String)
deriving DecidableEq, Repr

/-- An HTTP response: status code and body. -/
structure Response where
  status : Nat
  body : ResponseBody
deriving DecidableEq, Repr

/-- register_view (authentication/views.py lines 22-36): validate with
UserCreateSerializer; on success save and answer 201 with the user
representation wrapped beside the message; otherwise answer 400 with
serializer.errors. Returns the response and the data store afterwards. -/
def register_view (db : DB) (r : RegisterRequest) (fresh : Nat) : Response × DB :=
  let errs := validateRegister db r
  if errs = [] then
    let res := createUserWithProfile db r fresh
    ({ status := 201,
       body := .userWrapped (serializeUser res.2.2 res.1) "Usuario creado exitosamente" },
     res.2.2)
  else
    ({ status := 400, body := .fieldErrors errs }, db)

/-- Modelled from the spec: CustomTokenObtainPairSerializer
(apps/authentication/serializers.py, not among the available sources) on top
of the simplejwt TokenObtainPairView wired at /api/auth/login/ (views.py
lines 15-19). Spec section 4.1: the account must exist, be active, and the
password must match the stored credential; on success a token pair is
issued, on any failure a single undiscriminating authentication error. -/
def login_view (db : DB) (email password : String) : Response :=
  match db.accounts.find? (fun a => a.email == email) with
  | none =>
      { status := 401,
        body := .fieldErrors
          [("detail", "No active account found with the given credentials")] }
  | some a =>
      if checkPassword password a.password_hash && a.is_active then
        { status := 200,
          body := .tokenPair ("access." ++ toString a.id) ("refresh." ++ toString a.id) }
      else
        { status := 401,
          body := .fieldErrors
            [("detail", "No active account found with the given credentials")] }

/-- An access token as the middleware sees it: subject claim, expiry claim,
and whether the signature verifies. -/
structure Token where
  subject : Nat
  expiry : Nat
  signatureOk : Bool
deriving DecidableEq, Repr

/-- A token is valid and unexpired at time `now`. -/
def tokenLive (now : Nat) (t : Token) : Bool := t.signatureOk && decide (now < t.expiry)

/-- Modelled from the spec: the cross-cutting authorization gate
(spec section 4.4; the Django settings wiring DRF authentication is not
among the available sources). A request resolves to an account only when it
carries a token whose signature verifies, that is unexpired at `now`, and
whose subject claim names an existing account. -/
def authenticateRequest (db : DB) (now : Nat) (tok : Option Token) : Option Account :=
  match tok with
  | none => none
  | some t =>
      if tokenLive now t then db.accounts.find? (fun a => a.id == t.subject)
      else none

/-- The DRF 401 body for a request that fails authentication. -/
def authErrorBody : ResponseBody :=
  .fieldErrors [("detail", "Authentication credentials were not provided.")]

/-- profile_view (authentication/views.py lines 39-45) behind the
authorization gate: serialize request.user and answer 200; an
unauthenticated request is refused with 401 before the view runs. -/
def profile_view (db : DB) (now : Nat) (tok : Option Token) : Response × DB :=
  match authenticateRequest db now tok with
  | none => ({ status := 401, body := authErrorBody }, db)
  | some a => ({ status := 200, body := .reprBody (serializeUser db a) }, db)

/-- Partial body of a profile update request: every field optional
(partial=True in views.py line 53). For the Option-typed columns the outer
layer is presence in the request, the inner the column value. -/
structure UpdateBody where
  email : Option String
  id : Option Nat
  first_name : Option String
  last_name : Option String
  role : Option String
  phone : Option (Option String)
  avatar_url : Option (Option String)
  is_active : Option Bool
deriving DecidableEq, Repr

/-- Modelled from the spec: the update path of UserSerializer
(apps/authentication/serializers.py, not among the available sources).
Spec section 4.3: update applies only the allowed fields role, phone,
avatar reference and active flag; email, name and identifiers are read-only
through this path. This mirrors read_only_fields of ProfileSerializer in
profiles/serializers.py (id, user_id, email, first_name, last_name). -/
def applyUserSerializerUpdate (p : Profile) (b : UpdateBody) : Profile :=
  { p with
    role := b.role.getD p.role,
    phone := b.phone.getD p.phone,
    avatar_url := b.avatar_url.getD p.avatar_url,
    is_active := b.is_active.getD p.is_active }

/-- update_profile_view (authentication/views.py lines 48-57) behind the
authorization gate: apply the partial body to the profile of request.user
through the serializer and answer 200 with the updated representation; an
unauthenticated request is refused with 401 before the view runs. -/
def update_profile_view (db : DB) (now : Nat) (tok : Option Token) (b : UpdateBody) :
    Response × DB :=
  match authenticateRequest db now tok with
  | none => ({ status := 401, body := authErrorBody }, db)
  | some a =>
      let profiles2 := db.profiles.map
        (fun p => if p.user_id == a.id then applyUserSerializerUpdate p b else p)
      let db2 : DB := { db with profiles := profiles2 }
      ({ status := 200, body := .reprBody (serializeUser db2 a) }, db2)

/-- validate_role of ProfileUpdateSerializer (profiles/serializers.py lines
41-43): returns the supplied value with no restriction. -/
def validate_role (value : String) : String := value

/-- ProfileUpdateSerializer (profiles/serializers.py lines 33-43) applied to
a profile: its Meta.fields are role, phone, avatar_url, is_active, all
writable, with role passed through validate_role. -/
def profileUpdateSerializerApply (p : Profile) (b : UpdateBody) : Profile :=
  { p with
    role := (b.role.map validate_role).getD p.role,
    phone := b.phone.getD p.phone,
    avatar_url := b.avatar_url.getD p.avatar_url,
    is_active := b.is_active.getD p.is_active }

/-- CourseEnrollment row (courses/models.py lines 29-42), restricted to the
columns of its unique_together constraint plus the primary key. -/
structure CourseEnrollment where
  id : Nat
  course_id : Nat
  student_id : Nat
deriving DecidableEq, Repr

/-- Attendance row (attendance/models.py), restricted to the columns of its
unique_together constraint plus the primary key and status. -/
structure Attendance where
  id : Nat
  course_id : Nat
  student_id : Nat
  date : Nat
  status : String
deriving DecidableEq, Repr

/-- AssignmentSubmission row (assignments/models.py lines 35-60), restricted
to the columns of its unique_together constraint plus the primary key. -/
structure AssignmentSubmission where
  id : Nat
  assignment_id : Nat
  student_id : Nat
deriving DecidableEq, Repr

/-- The data-store errors surfaced verbatim (spec section 7): a uniqueness
violation is a ConflictError carrying status 409. -/
inductive DbError
  | conflict
deriving DecidableEq, Repr

/-- Status code of a data-store error (spec section 7: ConflictError is 409). -/
def DbError.statusCode : DbError → Nat
  | .conflict => 409

/-- The unique_together key of courses/models.py line 42 is already taken. -/
def enrollmentKeyTaken (rows : List CourseEnrollment) (e : CourseEnrollment) : Bool :=
  rows.any (fun r => r.course_id == e.course_id && r.student_id == e.student_id)

/-- Insertion under the unique_together constraint of course_enrollments
(courses/models.py line 42): a duplicate (course_id, student_id) key is
refused by the store with ConflictError, otherwise the row is added. -/
def insertEnrollment (rows : List CourseEnrollment) (e : CourseEnrollment) :
    Except DbError (List CourseEnrollment) :=
  if enrollmentKeyTaken rows e then .error .conflict else .ok (e :: rows)

/-- The unique_together key of attendance/models.py line 34 is already taken. -/
def attendanceKeyTaken (rows : List Attendance) (e : Attendance) : Bool :=
  rows.any (fun r =>
    r.course_id == e.course_id && r.student_id == e.student_id && r.date == e.date)

/-- Insertion under the unique_together constraint of attendance
(attendance/models.py line 34): a duplicate (course_id, student_id, date)
key is refused by the store with ConflictError, otherwise the row is added. -/
def insertAttendance (rows : List Attendance) (e : Attendance) :
    Except DbError (List Attendance) :=
  if attendanceKeyTaken rows e then .error .conflict else .ok (e :: rows)

/-- The unique_together key of assignments/models.py line 59 is already taken. -/
def submissionKeyTaken (rows : List AssignmentSubmission) (e : AssignmentSubmission) : Bool :=
  rows.any (fun r => r.assignment_id == e.assignment_id && r.student_id == e.student_id)

/-- Insertion under the unique_together constraint of assignment_submissions
(assignments/models.py line 59): a duplicate (assignment_id, student_id) key
is refused by the store with ConflictError, otherwise the row is added. -/
def insertSubmission (rows : List AssignmentSubmission) (e : AssignmentSubmission) :
    Except DbError (List AssignmentSubmission) :=
  if submissionKeyTaken rows e then .error .conflict else .ok (e :: rows)

/-- At most one enrollment per (course_id, student_id) pair. -/
def enrollmentUnique (rows : List CourseEnrollment) : Prop :=
  rows.Pairwise (fun a b => ¬(a.course_id = b.course_id ∧ a.student_id = b.student_id))

/-- At most one attendance record per (course_id, student_id, date) triple. -/
def attendanceUnique (rows : List Attendance) : Prop :=
  rows.Pairwise (fun a b =>
    ¬(a.course_id = b.course_id ∧ a.student_id = b.student_id ∧ a.date = b.date))

/-- At most one submission per (assignment_id, student_id) pair. -/
def submissionUnique (rows : List AssignmentSubmission) : Prop :=
  rows.Pairwise (fun a b => ¬(a.assignment_id = b.assignment_id ∧ a.student_id = b.student_id))

/-- Exactly one Profile per Account and no orphan Profile: every account has
exactly one profile row keyed by user_id, and every profile row points at an
existing account (spec section 3 invariant). -/
def onePairInv (db : DB) : Prop :=
  (∀ a ∈ db.accounts, db.profiles.countP (fun p => p.user_id == a.id) = 1) ∧
  (∀ p ∈ db.profiles, ∃ a ∈ db.accounts, a.id = p.user_id)

/-- Sample empty store. -/
def db0 : DB := { accounts := [], profiles := [] }

/-- The registration request of the concrete scenario in spec section 8. -/
def reqAna : RegisterRequest :=
  { email := "a@x.com", password := "Str0ng!pw",
    first_name := "Ana", last_name := "Ruiz", role := none }

/-- The store after registering reqAna once into the empty store. -/
def db1 : DB := (register_view db0 reqAna 1).2

/-- An invalid registration request: everything missing. -/
def reqBad : RegisterRequest :=
  { email := "", password := "", first_name := "", last_name := "", role := none }

/-- A sample profile row. -/
def pSam : Profile :=
  { id := 3, user_id := 3, email := "s@x.com", first_name := "Sam",
    last_name := "Lee", role := "student", phone := none, avatar_url := none,
    is_active := true }

/-- A sample inactive account whose password is `Str0ng!pw`. -/
def aInactive : Account :=
  { id := 9, email := "off@x.com", password_hash := hashPassword "Str0ng!pw",
    is_active := false }

/-- A store holding only the inactive sample account (no profile needed). -/
def dbInactive : DB := { accounts := [aInactive], profiles := [] }

/-- A request body trying to change email, id and role at once. -/
def bodyHostile : UpdateBody :=
  { email := some "evil@x.com", id := some 77, first_name := some "Eve",
    last_name := some "Mallory", role := some "admin", phone := none,
    avatar_url := none, is_active := none }

/-- A sample enrollment, attendance and submission row. -/
def enr1 : CourseEnrollment := { id := 1, course_id := 10, student_id := 20 }

/-- A second enrollment with the same (course_id, student_id) key. -/
def enr2 : CourseEnrollment := { id := 2, course_id := 10, student_id := 20 }

/-- The attendance record of the concrete scenario in spec section 8. -/
def att1 : Attendance :=
  { id := 1, course_id := 10, student_id := 20, date := 20240101, status := "present" }

/-- A second attendance record with the same (course_id, student_id, date) key. -/
def att2 : Attendance :=
  { id := 2, course_id := 10, student_id := 20, date := 20240101, status := "absent" }

/-- A sample submission row. -/
def sub1 : AssignmentSubmission := { id := 1, assignment_id := 30, student_id := 20 }

/-- A second submission with the same (assignment_id, student_id) key. -/
def sub2 : AssignmentSubmission := { id := 2, assignment_id := 30, student_id := 20 }

/-- The body carries a token pair. -/
def isTokenPair : ResponseBody → Bool
  | .tokenPair _ _ => true
  | _ => false

/-- The body is a bare representation (not wrapped, not an error map). -/
def isBareRepresentation : ResponseBody → Bool
  | .reprBody _ => true
  | _ => false

/-- An expired sample token for account 1 (expiry 5, checked at time 10). -/
def tokExpired : Token := { subject := 1, expiry := 5, signatureOk := true }

/-- A request carrying no live token resolves to no account. -/
theorem authenticateRequest_eq_none (db : DB) (now : Nat) (tok : Option Token)
    (h : ∀ t, tok = some t → tokenLive now t = false) :
    authenticateRequest db now tok = none := by
  cases tok with
  | none => rfl
  | some t => simp [authenticateRequest, h t rfl]

/-- Claim C10: the full_name field of the serialized profile representation
equals first_name, a single space, last_name of the profile. -/
theorem c10_full_name_field (p : Profile) :
    (serializeProfile p).lookup "full_name" = some (p.first_name ++ " " ++ p.last_name) := by
  simp [serializeProfile, List.lookup, Profile.full_name]

/-- Claim C1: a request to the profile read or profile update operation that
carries no valid, non-expired access token is answered 401 with the bare
authentication-error body, and the data store is untouched. -/
theorem c1_unauthenticated_requests_fail (db : DB) (now : Nat) (tok : Option Token)
    (b : UpdateBody) (h : ∀ t, tok = some t → tokenLive now t = false) :
    (profile_view db now tok).1.status = 401 ∧
    (profile_view db now tok).1.body = authErrorBody ∧
    (profile_view db now tok).2 = db ∧
    (update_profile_view db now tok b).1.status = 401 ∧
    (update_profile_view db now tok b).1.body = authErrorBody ∧
    (update_profile_view db now tok b).2 = db := by
  have hn := authenticateRequest_eq_none db now tok h
  simp [profile_view, update_profile_view, hn]

/-- Witness for C1: over db1 at time 10, an expired token is refused by both
profile operations and the store is unchanged. -/
theorem c1_witness :
    (profile_view db1 10 (some tokExpired)).1.status = 401 ∧
    (profile_view db1 10 (some tokExpired)).1.body = authErrorBody ∧
    (profile_view db1 10 (some tokExpired)).2 = db1 ∧
    (update_profile_view db1 10 (some tokExpired) bodyHostile).1.status = 401 ∧
    (update_profile_view db1 10 (some tokExpired) bodyHostile).1.body = authErrorBody ∧
    (update_profile_view db1 10 (some tokExpired) bodyHostile).2 = db1 :=
  c1_unauthenticated_requests_fail db1 10 (some tokExpired) bodyHostile
    (by intro t ht; injection ht with h2; subst h2; decide)

/-- The serializer update of the profile accessor never touches id. -/
theorem applyUserSerializerUpdate_id (p : Profile) (b : UpdateBody) :
    (applyUserSerializerUpdate p b).id = p.id := rfl

/-- The serializer update of the profile accessor never touches email. -/
theorem applyUserSerializerUpdate_email (p : Profile) (b : UpdateBody) :
    (applyUserSerializerUpdate p b).email = p.email := rfl

/-- Claim C4: whatever body is supplied to the profile update operation, the
stored id and email of every profile row — in particular the caller's — are
the same after the operation as before. -/
theorem c4_update_preserves_email_and_id (db : DB) (now : Nat) (tok : Option Token)
    (b : UpdateBody) :
    ((update_profile_view db now tok b).2).profiles.map (fun p => (p.id, p.email)) =
      db.profiles.map (fun p => (p.id, p.email)) := by
  unfold update_profile_view
  cases h : authenticateRequest db now tok with
  | none => rfl
  | some a =>
      simp only [List.map_map]
      refine List.map_congr_left ?_
      intro p _
      by_cases hc : p.user_id == a.id <;>
        simp [Function.comp, hc, applyUserSerializerUpdate]

/-- Claim C6: a valid registration that supplies no role creates a profile
whose role is the column default student. -/
theorem c6_default_role_student (db : DB) (r : RegisterRequest) (fresh : Nat)
    (hrole : r.role = none) (hv : validateRegister db r = []) :
    ∃ p : Profile, (register_view db r fresh).2.profiles = p :: db.profiles ∧
      p.role = "student" := by
  refine ⟨(createUserWithProfile db r fresh).2.1, ?_, ?_⟩
  · simp [register_view, hv, createUserWithProfile]
  · simp [createUserWithProfile, roleOrDefault, hrole]

/-- Witness for C6: registering the scenario request of spec section 8 into
the empty store yields a profile with role student. -/
theorem c6_witness :
    ∃ p : Profile, (register_view db0 reqAna 1).2.profiles = p :: db0.profiles ∧
      p.role = "student" :=
  c6_default_role_student db0 reqAna 1 rfl (by decide)

/-- Claim C8: a login whose password matches the stored credential of an
account that is inactive fails with 401 and issues no token pair. -/
theorem c8_inactive_account_login_fails (db : DB) (email pw : String) (a : Account)
    (hfind : db.accounts.find? (fun x => x.email == email) = some a)
    (hpw : checkPassword pw a.password_hash = true)
    (hinact : a.is_active = false) :
    (login_view db email pw).status = 401 ∧
    isTokenPair (login_view db email pw).body = false := by
  simp [login_view, hfind, hpw, hinact, isTokenPair]

/-- Witness for C8: the inactive sample account with its correct password is
refused and gets no tokens. -/
theorem c8_witness :
    (login_view dbInactive "off@x.com" "Str0ng!pw").status = 401 ∧
    isTokenPair (login_view dbInactive "off@x.com" "Str0ng!pw").body = false :=
  c8_inactive_account_login_fails dbInactive "off@x.com" "Str0ng!pw" aInactive
    (by decide) (by decide) (by decide)

/-- Claim C9: under each composite-uniqueness invariant, a successful insert
preserves the invariant, and an insert whose unique_together key is already
present fails with ConflictError (status 409), adding no row. -/
theorem c9_composite_uniqueness
    (es : List CourseEnrollment) (e : CourseEnrollment)
    (ats : List Attendance) (at1 : Attendance)
    (ss : List AssignmentSubmission) (s : AssignmentSubmission)
    (he : enrollmentUnique es) (ha : attendanceUnique ats) (hs : submissionUnique ss) :
    ((∀ es2, insertEnrollment es e = .ok es2 → enrollmentUnique es2) ∧
      (enrollmentKeyTaken es e = true →
        insertEnrollment es e = .error .conflict)) ∧
    ((∀ as2, insertAttendance ats at1 = .ok as2 → attendanceUnique as2) ∧
      (attendanceKeyTaken ats at1 = true →
        insertAttendance ats at1 = .error .conflict)) ∧
    ((∀ ss2, insertSubmission ss s = .ok ss2 → submissionUnique ss2) ∧
      (submissionKeyTaken ss s = true →
        insertSubmission ss s = .error .conflict)) ∧
    DbError.statusCode .conflict = 409 := by
  refine ⟨⟨?_, ?_⟩, ⟨?_, ?_⟩, ⟨?_, ?_⟩, rfl⟩
  · intro es2 hok
    by_cases hk : enrollmentKeyTaken es e
    · simp [insertEnrollment, hk] at hok
    · simp [insertEnrollment, hk] at hok
      subst hok
      refine List.Pairwise.cons ?_ he
      intro r hr hkey
      refine hk ?_
      unfold enrollmentKeyTaken
      rw [List.any_eq_true]
      exact ⟨r, hr, by simp [hkey.1, hkey.2]⟩
  · intro hk; simp [insertEnrollment, hk]
  · intro as2 hok
    by_cases hk : attendanceKeyTaken ats at1
    · simp [insertAttendance, hk] at hok
    · simp [insertAttendance, hk] at hok
      subst hok
      refine List.Pairwise.cons ?_ ha
      intro r hr hkey
      refine hk ?_
      unfold attendanceKeyTaken
      rw [List.any_eq_true]
      exact ⟨r, hr, by simp [hkey.1, hkey.2.1, hkey.2.2]⟩
  · intro hk; simp [insertAttendance, hk]
  · intro ss2 hok
    by_cases hk : submissionKeyTaken ss s
    · simp [insertSubmission, hk] at hok
    · simp [insertSubmission, hk] at hok
      subst hok
      refine List.Pairwise.cons ?_ hs
      intro r hr hkey
      refine hk ?_
      unfold submissionKeyTaken
      rw [List.any_eq_true]
      exact ⟨r, hr, by simp [hkey.1, hkey.2]⟩
  · intro hk; simp [insertSubmission, hk]

/-- Witness for C9: the duplicate enrollment, the duplicate attendance
record of the spec section 8 scenario, and the duplicate submission are all
refused with ConflictError. -/
theorem c9_witness :
    insertEnrollment [enr1] enr2 = .error .conflict ∧
    insertAttendance [att1] att2 = .error .conflict ∧
    insertSubmission [sub1] sub2 = .error .conflict := by
  obtain ⟨⟨-, h1⟩, ⟨-, h2⟩, ⟨-, h3⟩, -⟩ :=
    c9_composite_uniqueness [enr1] enr2 [att1] att2 [sub1] sub2
      (by simp [enrollmentUnique]) (by simp [attendanceUnique])
      (by simp [submissionUnique])
  exact ⟨h1 (by decide), h2 (by decide), h3 (by decide)⟩

/-- Claim C2: registration validation failure answers 400 with the
field-level error map and leaves the store untouched; and in every case the
operation either leaves both tables untouched or extends both with a linked
Account/Profile pair — never one without the other. -/
theorem c2_registration_atomic (db : DB) (r : RegisterRequest) (fresh : Nat) :
    (validateRegister db r ≠ [] →
      (register_view db r fresh).1.status = 400 ∧
      (register_view db r fresh).1.body = .fieldErrors (validateRegister db r) ∧
      (register_view db r fresh).2 = db) ∧
    ((register_view db r fresh).2 = db ∨
      ∃ a p, p.user_id = a.id ∧
        (register_view db r fresh).2.accounts = a :: db.accounts ∧
        (register_view db r fresh).2.profiles = p :: db.profiles) := by
  by_cases hv : validateRegister db r = []
  · refine ⟨fun hne => absurd hv hne, Or.inr ?_⟩
    refine ⟨(createUserWithProfile db r fresh).1,
      (createUserWithProfile db r fresh).2.1, rfl, ?_, ?_⟩ <;>
      simp [register_view, hv, createUserWithProfile]
  · constructor
    · intro _
      simp [register_view, hv]
    · left
      simp [register_view, hv]

/-- Witness for C2: the all-empty registration request is refused with 400,
its error map names every missing field, and the empty store is unchanged. -/
theorem c2_witness :
    (register_view db0 reqBad 7).1.status = 400 ∧
    (register_view db0 reqBad 7).1.body = .fieldErrors (validateRegister db0 reqBad) ∧
    (register_view db0 reqBad 7).2 = db0 :=
  (c2_registration_atomic db0 reqBad 7).1 (by decide)

/-- Shape of register_view on a valid request: 201 with the wrapped user
representation, and both rows of createUserWithProfile persisted. -/
theorem register_view_success (db : DB) (r : RegisterRequest) (fresh : Nat)
    (h : validateRegister db r = []) :
    register_view db r fresh =
      ({ status := 201,
         body := .userWrapped
           (serializeUser (createUserWithProfile db r fresh).2.2
             (createUserWithProfile db r fresh).1)
           "Usuario creado exitosamente" },
       (createUserWithProfile db r fresh).2.2) := by
  simp [register_view, h]

/-- Shape of register_view on an invalid request: 400 with the field-level
error map and an untouched store. -/
theorem register_view_failure (db : DB) (r : RegisterRequest) (fresh : Nat)
    (h : validateRegister db r ≠ []) :
    register_view db r fresh =
      ({ status := 400, body := .fieldErrors (validateRegister db r) }, db) := by
  simp [register_view, h]

/-- Decomposition of a passing registration validation into its four checks. -/
theorem validateRegister_eq_nil_iff (db : DB) (r : RegisterRequest) :
    validateRegister db r = [] ↔
      r.email ≠ "" ∧ db.accounts.any (fun a => a.email == r.email) = false ∧
      ¬(r.password.length < 8) ∧ r.first_name ≠ "" ∧ r.last_name ≠ "" := by
  unfold validateRegister
  by_cases h1 : r.email = "" <;>
    by_cases h2 : db.accounts.any (fun a => a.email == r.email) <;>
      by_cases h3 : r.password.length < 8 <;>
        by_cases h4 : r.first_name = "" <;>
          by_cases h5 : r.last_name = "" <;>
            simp [h1, h2, h3, h4, h5]

/-- Claim C3 fails as stated: registering the spec section 8 scenario
request twice makes the second attempt answer status 400 (the field-level
validation error of register_view), not the ConflictError status 409 the
claim requires. -/
theorem c3_counterexample :
    (register_view db1 reqAna 2).1.status = 400 ∧
    (register_view db1 reqAna 2).1.status ≠ DbError.statusCode .conflict := by
  decide

/-- Claim C3 amended: a second registration with the same email fails with
the field-level validation error map (status 400, the email marked as
taken), the store is left exactly as after the first registration, and that
store holds exactly one account and one profile with the email. -/
theorem c3_amended (db : DB) (r : RegisterRequest) (f1 f2 : Nat)
    (hv : validateRegister db r = [])
    (hp : db.profiles.countP (fun p => p.email == r.email) = 0) :
    (register_view (register_view db r f1).2 r f2).1.status = 400 ∧
    (register_view (register_view db r f1).2 r f2).1.body =
      .fieldErrors [("email", "A user with that email already exists.")] ∧
    (register_view (register_view db r f1).2 r f2).2 = (register_view db r f1).2 ∧
    (register_view db r f1).2.accounts.countP (fun a => a.email == r.email) = 1 ∧
    (register_view db r f1).2.profiles.countP (fun p => p.email == r.email) = 1 := by
  obtain ⟨he, hdup, hpw, hfn, hln⟩ := (validateRegister_eq_nil_iff db r).1 hv
  have h1 := register_view_success db r f1 hv
  have hdb1a : (register_view db r f1).2.accounts =
      (createUserWithProfile db r f1).1 :: db.accounts := by rw [h1]; rfl
  have hdb1p : (register_view db r f1).2.profiles =
      (createUserWithProfile db r f1).2.1 :: db.profiles := by rw [h1]; rfl
  have hv2 : validateRegister (register_view db r f1).2 r =
      [("email", "A user with that email already exists.")] := by
    unfold validateRegister
    rw [hdb1a]
    simp [createUserWithProfile, he, hfn, hln, hpw]
  have h2 := register_view_failure (register_view db r f1).2 r f2 (by rw [hv2]; simp)
  have hcnt0 : db.accounts.countP (fun a => a.email == r.email) = 0 := by
    rw [List.countP_eq_zero]
    intro a hma
    exact List.any_eq_false.mp hdup a hma
  refine ⟨?_, ?_, ?_, ?_, ?_⟩
  · rw [h2]
  · rw [h2]; simp [hv2]
  · rw [h2]
  · rw [hdb1a, List.countP_cons_of_pos _ _ (by simp [createUserWithProfile]), hcnt0]
  · rw [hdb1p, List.countP_cons_of_pos _ _ (by simp [createUserWithProfile]), hp]

/-- Witness for the amended C3: the spec section 8 scenario request
registered twice into the empty store. -/
theorem c3_amended_witness :
    (register_view (register_view db0 reqAna 1).2 reqAna 2).1.status = 400 ∧
    (register_view (register_view db0 reqAna 1).2 reqAna 2).1.body =
      .fieldErrors [("email", "A user with that email already exists.")] ∧
    (register_view (register_view db0 reqAna 1).2 reqAna 2).2 =
      (register_view db0 reqAna 1).2 ∧
    (register_view db0 reqAna 1).2.accounts.countP
      (fun a => a.email == reqAna.email) = 1 ∧
    (register_view db0 reqAna 1).2.profiles.countP
      (fun p => p.email == reqAna.email) = 1 :=
  c3_amended db0 reqAna 1 2 (by decide) (by decide)

/-- Claim C5 fails as stated: ProfileUpdateSerializer is a profile-mutating
path with no administrative gate, and applying it with a role value to the
sample student profile changes the stored role. -/
theorem c5_counterexample :
    (profileUpdateSerializerApply pSam bodyHostile).role ≠ pSam.role ∧
    (profileUpdateSerializerApply pSam bodyHostile).role = "admin" ∧
    validate_role "admin" = "admin" := by decide

/-- Extending a store satisfying the one-pair invariant with a linked
account/profile pair whose identifier is unused preserves the invariant. -/
theorem onePairInv_cons (db : DB) (a1 : Account) (p1 : Profile)
    (hinv : onePairInv db) (hfresh : ∀ a ∈ db.accounts, a.id ≠ a1.id)
    (hlink : p1.user_id = a1.id) :
    onePairInv { accounts := a1 :: db.accounts, profiles := p1 :: db.profiles } := by
  obtain ⟨hinv1, hinv2⟩ := hinv
  unfold onePairInv
  dsimp only
  constructor
  · intro a hma
    rcases List.mem_cons.mp hma with rfl | hma2
    · rw [List.countP_cons_of_pos _ _ (by simp [hlink])]
      have h0 : db.profiles.countP (fun p => p.user_id == a.id) = 0 := by
        rw [List.countP_eq_zero]
        intro p hmp hbeq
        obtain ⟨a0, ha0, hid⟩ := hinv2 p hmp
        exact hfresh a0 ha0 (by rw [hid]; exact beq_iff_eq.mp hbeq)
      rw [h0]
    · rw [List.countP_cons_of_neg _ _ (by
        simp only [hlink, beq_iff_eq]
        exact fun h => hfresh a hma2 h.symm)]
      exact hinv1 a hma2
  · intro p hmp
    rcases List.mem_cons.mp hmp with rfl | hmp2
    · exact ⟨a1, List.mem_cons_self _ _, hlink.symm⟩
    · obtain ⟨a0, ha0, hid⟩ := hinv2 p hmp2
      exact ⟨a0, List.mem_cons_of_mem _ ha0, hid⟩

/-- Claim C5 amended: user_id uniqueness keeps exactly one Profile per
Account across registration, but role is not immutable: the profile update
serializer applies any supplied role for any caller, validate_role imposing
no restriction. -/
theorem c5_amended (db : DB) (r : RegisterRequest) (fresh : Nat)
    (hinv : onePairInv db)
    (hfresh : ∀ a ∈ db.accounts, a.id ≠ fresh) :
    onePairInv (register_view db r fresh).2 ∧
    (∀ (p : Profile) (b : UpdateBody) (v : String),
      b.role = some v → (profileUpdateSerializerApply p b).role = v) := by
  constructor
  · by_cases hv : validateRegister db r = []
    · rw [register_view_success db r fresh hv]
      exact onePairInv_cons db (createUserWithProfile db r fresh).1
        (createUserWithProfile db r fresh).2.1 hinv hfresh rfl
    · rw [register_view_failure db r fresh hv]
      exact hinv
  · intro p b v hb
    simp [profileUpdateSerializerApply, validate_role, hb]

/-- Witness for the amended C5: registering into the empty store keeps the
one-pair invariant, and the update serializer sets the sample profile role
to admin. -/
theorem c5_amended_witness :
    onePairInv (register_view db0 reqAna 1).2 ∧
    (profileUpdateSerializerApply pSam bodyHostile).role = "admin" := by
  have h := c5_amended db0 reqAna 1
    ⟨by simp [db0], by simp [db0]⟩ (by simp [db0])
  exact ⟨h.1, h.2 pSam bodyHostile "admin" rfl⟩

/-- Right after createUserWithProfile, serializing the new account finds the
freshly linked profile row. -/
theorem serializeUser_after_create (db : DB) (r : RegisterRequest) (fresh : Nat) :
    serializeUser (createUserWithProfile db r fresh).2.2
      (createUserWithProfile db r fresh).1 =
      serializeProfile (createUserWithProfile db r fresh).2.1 := by
  unfold serializeUser
  rw [show (createUserWithProfile db r fresh).2.2.profiles =
      (createUserWithProfile db r fresh).2.1 :: db.profiles from rfl]
  rw [List.find?_cons_of_pos _ (by simp [createUserWithProfile])]

/-- Claim C7 fails as stated: the successful registration answers 201, but
the body is the dict of views.py lines 32-35 wrapping a user key and a
message key, not the bare representation of the created profile. -/
theorem c7_counterexample :
    (register_view db0 reqAna 1).1.status = 201 ∧
    isBareRepresentation (register_view db0 reqAna 1).1.body = false := by
  decide

/-- Claim C7 amended: a successful registration answers 201 with a body
wrapping the created profile representation under the user key beside a
success message; the representation carries exactly the ProfileSerializer
keys, among which no password or credential field appears. -/
theorem c7_amended (db : DB) (r : RegisterRequest) (fresh : Nat)
    (hv : validateRegister db r = []) :
    (register_view db r fresh).1.status = 201 ∧
    (register_view db r fresh).1.body =
      .userWrapped (serializeProfile (createUserWithProfile db r fresh).2.1)
        "Usuario creado exitosamente" ∧
    (serializeProfile (createUserWithProfile db r fresh).2.1).map Prod.fst =
      ["id", "user_id", "email", "first_name", "last_name", "full_name",
       "role", "phone", "avatar_url", "is_active"] ∧
    "password" ∉ (serializeProfile (createUserWithProfile db r fresh).2.1).map Prod.fst := by
  have h1 := register_view_success db r fresh hv
  have hkeys : (serializeProfile (createUserWithProfile db r fresh).2.1).map Prod.fst =
      ["id", "user_id", "email", "first_name", "last_name", "full_name",
       "role", "phone", "avatar_url", "is_active"] := rfl
  refine ⟨by rw [h1], ?_, hkeys, by rw [hkeys]; decide⟩
  rw [h1]
  show ResponseBody.userWrapped
      (serializeUser (createUserWithProfile db r fresh).2.2
        (createUserWithProfile db r fresh).1)
      "Usuario creado exitosamente" = _
  rw [serializeUser_after_create]

/-- Witness for the amended C7: the spec section 8 scenario registration
into the empty store. -/
theorem c7_witness :
    (register_view db0 reqAna 1).1.status = 201 ∧
    (register_view db0 reqAna 1).1.body =
      .userWrapped (serializeProfile (createUserWithProfile db0 reqAna 1).2.1)
        "Usuario creado exitosamente" ∧
    (serializeProfile (createUserWithProfile db0 reqAna 1).2.1).map Prod.fst =
      ["id", "user_id", "email", "first_name", "last_name", "full_name",
       "role", "phone", "avatar_url", "is_active"] ∧
    "password" ∉ (serializeProfile (createUserWithProfile db0 reqAna 1).2.1).map Prod.fst :=
  c7_amended db0 reqAna 1 (by decide)
